import Mathlib

/-!
Verification development for the vector-ai screen-capture application.

The definitions below are shallow embeddings of the TypeScript source:
  * `mapRect` / `cropStoredScreenshot` — the CSS-rectangle → thumbnail-pixel
    crop mapping of `cropStoredScreenshot` (src/electron/main.ts, lines
    1673–1718) and the identical inline crop of `captureScreenshot`
    (lines 251–281).
  * the capture-source matching heuristics of `captureScreenshot`
    (lines 161–243).
  * the analyzer dispatch of `analyzeScreenshotWithVision` and the
    `analyze-prompt` IPC handler (lines 377–406 and 1721–1777).
  * the speech-capture state handlers (lines 834–945, 1129–1141, 1320–1327).
  * the selection overlay's `handleMouseUp` (src/src/pages/SelectionOverlay.tsx).

JavaScript numbers are modelled as exact rationals (ℚ); `Math.round` is
modelled as `jsRound` (floor of x + 1/2, JavaScript's round-half-up).
-/

/-- A rectangle in integer thumbnail-pixel coordinates (the result of the
crop mapping). -/
structure PixelRect where
  x : Int
  y : Int
  width : Int
  height : Int
deriving DecidableEq, Repr

/-- A selection rectangle in CSS/logical pixel coordinates, as produced by
the selection overlay (`SelectionBounds` in the source). -/
structure SelectionBounds where
  x : ℚ
  y : ℚ
  width : ℚ
  height : ℚ
deriving DecidableEq, Repr

/-- JavaScript `Math.round`: rounds to the nearest integer, half-up
(`Math.round x = ⌊x + 0.5⌋` for finite doubles). -/
def jsRound (q : ℚ) : Int := ⌊q + 1/2⌋

/-- The core crop mapping shared by `cropStoredScreenshot` (main.ts lines
1693–1715) and the inline crop in `captureScreenshot` (lines 258–280):

    scaleX = imageSize.width / displaySize.width
    cropX = Math.round(bounds.x * scaleX), …
    safeX = Math.max(0, Math.min(cropX, imageSize.width - 1)), …
    safeWidth = Math.min(cropWidth, imageSize.width - safeX), …
    if (safeWidth <= 0 || safeHeight <= 0) return full image

`none` models the "return the full uncropped image" branch, `some r` the
actual `img.crop` call. -/
def mapRect (imageW imageH : Int) (displayW displayH : ℚ) (b : SelectionBounds) :
    Option PixelRect :=
  let scaleX : ℚ := (imageW : ℚ) / displayW
  let scaleY : ℚ := (imageH : ℚ) / displayH
  let cropX := jsRound (b.x * scaleX)
  let cropY := jsRound (b.y * scaleY)
  let cropWidth := jsRound (b.width * scaleX)
  let cropHeight := jsRound (b.height * scaleY)
  let safeX := max 0 (min cropX (imageW - 1))
  let safeY := max 0 (min cropY (imageH - 1))
  let safeWidth := min cropWidth (imageW - safeX)
  let safeHeight := min cropHeight (imageH - safeY)
  if safeWidth ≤ 0 ∨ safeHeight ≤ 0 then none
  else some ⟨safeX, safeY, safeWidth, safeHeight⟩

/-- `cropStoredScreenshot` (main.ts lines 1673–1718): returns the full
stored screenshot (`none`) when there is no stored display size or the
stored image has a zero dimension, otherwise applies the crop mapping. -/
def cropStoredScreenshot (displaySize : Option (ℚ × ℚ)) (imageW imageH : Int)
    (b : SelectionBounds) : Option PixelRect :=
  match displaySize with
  | none => none
  | some (dw, dh) =>
    if imageW = 0 ∨ imageH = 0 then none
    else mapRect imageW imageH dw dh b

/-- C1: for every crop rectangle, stored display logical size, and thumbnail
with positive dimensions, the crop mapping scales each field by
thumbnailDimension/displayLogicalDimension, rounds, clamps the origin into
[0, dim-1] and the size to at most dim - origin, so every produced rectangle
lies fully inside [0,0]×[imageW,imageH] with positive area; and the mapping
returns the full uncropped image (`none`) exactly when the clamped rectangle
has zero or negative area. -/
theorem crop_mapping_contained (imageW imageH : Int) (displayW displayH : ℚ)
    (b : SelectionBounds) (hW : 1 ≤ imageW) (hH : 1 ≤ imageH)
    (hdW : 0 < displayW) (hdH : 0 < displayH) :
    (∀ r : PixelRect, mapRect imageW imageH displayW displayH b = some r →
      0 ≤ r.x ∧ 0 ≤ r.y ∧ 0 < r.width ∧ 0 < r.height ∧
      r.x + r.width ≤ imageW ∧ r.y + r.height ≤ imageH) ∧
    (mapRect imageW imageH displayW displayH b = none ↔
      (min (jsRound (b.width * ((imageW : ℚ) / displayW)))
          (imageW - max 0 (min (jsRound (b.x * ((imageW : ℚ) / displayW))) (imageW - 1))) ≤ 0 ∨
       min (jsRound (b.height * ((imageH : ℚ) / displayH)))
          (imageH - max 0 (min (jsRound (b.y * ((imageH : ℚ) / displayH))) (imageH - 1))) ≤ 0)) := by
  constructor
  · intro r hr
    unfold mapRect at hr
    dsimp only at hr
    split at hr
    · exact Option.noConfusion hr
    · rename_i hpos
      injection hr with hr
      subst hr
      push_neg at hpos
      dsimp only
      omega
  · unfold mapRect
    dsimp only
    split
    · rename_i hz
      exact iff_of_true rfl hz
    · rename_i hz
      constructor
      · intro h
        exact Option.noConfusion h
      · intro h
        exact absurd h hz

/-- Witness for C1: the spec's own 2x-scale scenario — display 1920×1080,
bitmap 3840×2160, CSS rectangle (100,100,200,150) maps to (200,200,400,300),
which is contained in the bitmap. -/
theorem crop_mapping_contained_witness :
    0 ≤ (200 : Int) ∧ 0 ≤ (200 : Int) ∧ 0 < (400 : Int) ∧ 0 < (300 : Int) ∧
      200 + 400 ≤ (3840 : Int) ∧ 200 + 300 ≤ (2160 : Int) :=
  (crop_mapping_contained 3840 2160 1920 1080 ⟨100, 100, 200, 150⟩
      (by decide) (by decide) (by norm_num) (by norm_num)).1
    ⟨200, 200, 400, 300⟩ (by unfold mapRect jsRound; norm_num)

/-! ### Selection overlay (src/src/pages/SelectionOverlay.tsx) -/

/-- `getSelectionBounds` (SelectionOverlay.tsx lines 16–22): computes the
selection rectangle from the drag's start and current points
(`clientX`/`clientY` CSS pixels). -/
def getSelectionBounds (startPoint currentPoint : ℚ × ℚ) : SelectionBounds :=
  { x := min startPoint.1 currentPoint.1
    y := min startPoint.2 currentPoint.2
    width := |currentPoint.1 - startPoint.1|
    height := |currentPoint.2 - startPoint.2| }

/-- `handleMouseUp` (SelectionOverlay.tsx lines 51–65): on completing a drag
(`isSelecting` true), report the selection iff both dimensions are at least
10 CSS pixels; otherwise reset and report nothing (`none`). -/
def handleMouseUp (isSelecting : Bool) (startPoint currentPoint : ℚ × ℚ) :
    Option SelectionBounds :=
  if isSelecting then
    let bounds := getSelectionBounds startPoint currentPoint
    if bounds.width ≥ 10 ∧ bounds.height ≥ 10 then some bounds
    else none
  else none

/-- C9: for every completed drag gesture in the selection overlay, a
selection rectangle is reported iff both its width and height are at least
10 CSS pixels; any smaller selection (including zero-area) is discarded and
nothing is reported. -/
theorem selection_reported_iff_min_size (startPoint currentPoint : ℚ × ℚ) :
    (handleMouseUp true startPoint currentPoint
        = some (getSelectionBounds startPoint currentPoint) ↔
      10 ≤ (getSelectionBounds startPoint currentPoint).width ∧
      10 ≤ (getSelectionBounds startPoint currentPoint).height) ∧
    (handleMouseUp true startPoint currentPoint = none ↔
      ¬(10 ≤ (getSelectionBounds startPoint currentPoint).width ∧
        10 ≤ (getSelectionBounds startPoint currentPoint).height)) := by
  unfold handleMouseUp
  dsimp only
  rw [if_pos rfl]
  by_cases hc : 10 ≤ (getSelectionBounds startPoint currentPoint).width ∧
      10 ≤ (getSelectionBounds startPoint currentPoint).height
  · rw [if_pos hc]
    exact ⟨iff_of_true rfl hc,
           iff_of_false (fun h => Option.noConfusion h) (not_not_intro hc)⟩
  · rw [if_neg hc]
    exact ⟨iff_of_false (fun h => Option.noConfusion h) hc, iff_of_true rfl hc⟩

/-! ### Speech capture state (src/electron/main.ts)

The mutable module-level speech state of main.ts (`isSpeechRecording`,
`speechShouldStop`, `speechPopupGen`, and whether `popupWindow` currently
references a live window) is modelled as an explicit state record; each
IPC handler / window event handler becomes a state transition function.
Asynchronous window `closed` events are separate transitions carrying the
generation the handler captured at creation time. -/

/-- The speech-capture portion of main.ts's module state. `popupLive` models
`popupWindow !== null && !popupWindow.isDestroyed()`. -/
structure SpeechState where
  isSpeechRecording : Bool
  speechShouldStop : Bool
  speechPopupGen : Nat
  popupLive : Bool
deriving DecidableEq, Repr

/-- `createSpeechPopupWindow` (main.ts lines 878–945): closes any existing
popup (whose `closed` event is delivered later, see `onSpeechPopupClosed`),
increments the generation counter, and opens a new popup window. -/
def createSpeechPopupWindow (st : SpeechState) : SpeechState :=
  { st with speechPopupGen := st.speechPopupGen + 1, popupLive := true }

/-- The `closed` handler installed by `createSpeechPopupWindow` (main.ts
lines 936–944) for the popup created at generation `gen`: sets
`popupWindow = null`, then resets the recording flags only if the captured
generation still equals the current counter. -/
def onSpeechPopupClosed (gen : Nat) (st : SpeechState) : SpeechState :=
  let st1 := { st with popupLive := false }
  if gen = st1.speechPopupGen then
    { st1 with isSpeechRecording := false, speechShouldStop := false }
  else st1

/-- `handleSpeechShortcutPress` (main.ts lines 834–874): returns immediately
while `isSpeechRecording` is true; otherwise resets the flags if the popup
is gone, checks the Whisper model (a dialog and early return if missing),
and starts a recording (set flags, create popup). The asynchronous
key-release watcher it spawns is modelled by `onKeyReleaseDetected`. -/
def handleSpeechShortcutPress (modelDownloaded : Bool) (st : SpeechState) :
    SpeechState :=
  if st.isSpeechRecording then st
  else
    let st1 :=
      if !st.popupLive then
        { st with isSpeechRecording := false, speechShouldStop := false }
      else st
    if !modelDownloaded then st1
    else
      createSpeechPopupWindow
        { st1 with isSpeechRecording := true, speechShouldStop := false }

/-- The continuation of `waitForKeyRelease(...).then(...)` in
`handleSpeechShortcutPress` (main.ts lines 867–872): when the key is
physically released, set the stop flag if still recording. -/
def onKeyReleaseDetected (st : SpeechState) : SpeechState :=
  if st.isSpeechRecording ∧ ¬st.speechShouldStop then
    { st with speechShouldStop := true }
  else st

/-- The `should-stop-speech` IPC handler (main.ts lines 1320–1327): returns
whether the stop flag is set, clearing it when it was. -/
def shouldStopSpeech (st : SpeechState) : Bool × SpeechState :=
  if st.speechShouldStop then (true, { st with speechShouldStop := false })
  else (false, st)

/-- The `close-popup` IPC handler (main.ts lines 1129–1141): closes the
popup and picker windows if present, then unconditionally resets
`isSpeechRecording` and `speechShouldStop`. -/
def closePopupHandler (st : SpeechState) : SpeechState :=
  { st with popupLive := false, isSpeechRecording := false,
            speechShouldStop := false }

/-- C5: if a speech popup of generation `gen` has been replaced (the current
counter exceeds `gen`), its close event leaves `isSpeechRecording` and
`speechShouldStop` unchanged; only the close handler whose captured
generation equals the current counter resets both flags to false. -/
theorem stale_popup_close_preserves_state (st : SpeechState) (gen : Nat)
    (hstale : gen < st.speechPopupGen) :
    ((onSpeechPopupClosed gen st).isSpeechRecording = st.isSpeechRecording ∧
     (onSpeechPopupClosed gen st).speechShouldStop = st.speechShouldStop) ∧
    ((onSpeechPopupClosed st.speechPopupGen st).isSpeechRecording = false ∧
     (onSpeechPopupClosed st.speechPopupGen st).speechShouldStop = false) := by
  unfold onSpeechPopupClosed
  dsimp only
  have hne : ¬(gen = st.speechPopupGen) := Nat.ne_of_lt hstale
  rw [if_neg hne, if_pos rfl]
  exact ⟨⟨rfl, rfl⟩, rfl, rfl⟩

/-- Witness for C5: popup generation 1 was replaced (counter is 2); its
close event leaves a recording-in-progress state untouched, while a
generation-2 close resets the flags. -/
theorem stale_popup_close_preserves_state_witness :
    ((onSpeechPopupClosed 1 ⟨true, true, 2, true⟩).isSpeechRecording = true ∧
     (onSpeechPopupClosed 1 ⟨true, true, 2, true⟩).speechShouldStop = true) ∧
    ((onSpeechPopupClosed 2 ⟨true, true, 2, true⟩).isSpeechRecording = false ∧
     (onSpeechPopupClosed 2 ⟨true, true, 2, true⟩).speechShouldStop = false) :=
  stale_popup_close_preserves_state ⟨true, true, 2, true⟩ 1 (by decide)

/-- C6 (failing input): in the desynchronized state — `isSpeechRecording`
true but the popup window gone — a speech-hotkey press leaves the state
completely unchanged: `handleSpeechShortcutPress` returns at its first
guard, so the reset in its popup-gone branch (main.ts lines 839–842) is
unreachable while `isSpeechRecording` is true, no reset to Idle happens,
and no fresh recording starts (the generation counter stays put). -/
theorem speech_desync_press_unchanged :
    handleSpeechShortcutPress true ⟨true, false, 5, false⟩
      = ⟨true, false, 5, false⟩ ∧
    (handleSpeechShortcutPress true ⟨true, false, 5, false⟩).isSpeechRecording
      = true ∧
    (handleSpeechShortcutPress true ⟨true, false, 5, false⟩).speechPopupGen
      = 5 := by
  refine ⟨rfl, rfl, rfl⟩

/-- C7: a speech-hotkey press while `isSpeechRecording` is true and the
popup still exists is a no-op: the state is unchanged, so no second
recording starts, no popup is created, the generation counter stays, and
`speechShouldStop` is untouched. -/
theorem speech_press_noop_while_recording (modelDownloaded : Bool)
    (st : SpeechState) (hrec : st.isSpeechRecording = true)
    (hlive : st.popupLive = true) :
    handleSpeechShortcutPress modelDownloaded st = st := by
  unfold handleSpeechShortcutPress
  rw [hrec]
  rfl

/-- Witness for C7: a concrete recording-in-progress state is returned
unchanged by a repeated hotkey press. -/
theorem speech_press_noop_while_recording_witness :
    handleSpeechShortcutPress true ⟨true, false, 3, true⟩
      = ⟨true, false, 3, true⟩ :=
  speech_press_noop_while_recording true ⟨true, false, 3, true⟩ rfl rfl

/-- C8: `should-stop-speech` returns exactly the value of the
`speechShouldStop` flag at the moment of the call, and after every call the
flag is false (cleared as a side effect of the observation that returned
true); hence two consecutive calls with no intervening release signal never
both return true. The other state fields are untouched. -/
theorem should_stop_speech_clears_flag (st : SpeechState) :
    (shouldStopSpeech st).1 = st.speechShouldStop ∧
    (shouldStopSpeech st).2.speechShouldStop = false ∧
    ¬((shouldStopSpeech st).1 = true ∧
      (shouldStopSpeech (shouldStopSpeech st).2).1 = true) ∧
    (shouldStopSpeech st).2.isSpeechRecording = st.isSpeechRecording ∧
    (shouldStopSpeech st).2.speechPopupGen = st.speechPopupGen := by
  unfold shouldStopSpeech
  by_cases h : st.speechShouldStop = true
  · rw [if_pos h]
    dsimp only
    rw [if_neg (by simp)]
    exact ⟨h.symm, rfl, by simp, rfl, rfl⟩
  · rw [if_neg h]
    dsimp only
    rw [if_neg h]
    simp only [Bool.not_eq_true] at h
    exact ⟨h.symm, h, by simp, rfl, rfl⟩

/-- C10: every invocation of the `close-popup` handler unconditionally
resets `isSpeechRecording` and `speechShouldStop` to false, for every state
and hence regardless of the generation counter (which it does not consult
and leaves unchanged) — unlike the generation-guarded popup-`closed`
handler. In particular, in the interleaving where a hotkey press has just
created a newer recording session, `close-popup` still clears that newer
session's recording flag. -/
theorem close_popup_unconditional_reset (st : SpeechState) :
    (closePopupHandler st).isSpeechRecording = false ∧
    (closePopupHandler st).speechShouldStop = false ∧
    (closePopupHandler st).speechPopupGen = st.speechPopupGen ∧
    ((handleSpeechShortcutPress true
        { st with isSpeechRecording := false }).isSpeechRecording = true ∧
     (closePopupHandler (handleSpeechShortcutPress true
        { st with isSpeechRecording := false })).isSpeechRecording = false) := by
  refine ⟨rfl, rfl, rfl, ?_, rfl⟩
  cases hpl : st.popupLive <;>
    simp [handleSpeechShortcutPress, createSpeechPopupWindow, hpl]

/-! ### Analyzer dispatch (src/electron/main.ts lines 377–406, 1721–1777)

The backend HTTP response is modelled as an `HttpResponse`; its body is
either unparsable (`bodyJson = none`, `response.json()` rejects) or an
abstract JSON value `JVal`.  JavaScript property access on parsed JSON is
modelled faithfully, including the `TypeError` thrown by accessing a
property of `null`/`undefined`.  `JSON.parse` applied to the regex-matched
candidate substring is a platform builtin and is abstracted as a
`jsonParse` parameter (`none` models a parse exception); no claim depends
on its behaviour. -/

/-- A parsed JSON value (the result of `response.json()`). -/
inductive JVal where
  | null
  | bool (b : Bool)
  | num (q : ℚ)
  | str (s : String)
  | arr (xs : List JVal)
  | obj (fields : List (String × JVal))

/-- Field lookup in a JSON object. -/
def jlookup (fields : List (String × JVal)) (k : String) : Option JVal :=
  match fields.find? (fun p => p.1 == k) with
  | some p => some p.2
  | none => none

/-- Plain JavaScript property access `v.k` on a parsed-JSON value:
objects yield the field (or `undefined` = `none`), `null` throws a
`TypeError`, and other primitives yield `undefined`. -/
def jsGetProp (v : JVal) (k : String) : Except String (Option JVal) :=
  match v with
  | .obj fs => .ok (jlookup fs k)
  | .null => .error ("TypeError: Cannot read properties of null (reading " ++ k ++ ")")
  | _ => .ok none

/-- JavaScript index access `v[0]`: indexing `undefined` or `null` throws,
arrays yield their head, objects look up key "0", strings yield their first
character, other primitives yield `undefined`. -/
def jsIndexZero (v : Option JVal) : Except String (Option JVal) :=
  match v with
  | none => .error "TypeError: Cannot read properties of undefined (reading 0)"
  | some .null => .error "TypeError: Cannot read properties of null (reading 0)"
  | some (.arr xs) => .ok xs.head?
  | some (.obj fs) => .ok (jlookup fs "0")
  | some (.str s) => .ok (s.data.head?.map (fun c => .str (String.singleton c)))
  | some _ => .ok none

/-- Optional-chaining property access `v?.k`: `undefined`/`null` receivers
yield `undefined` without throwing; objects yield the field; other
primitives yield `undefined`. -/
def jsOptProp (v : Option JVal) (k : String) : Option JVal :=
  match v with
  | some (.obj fs) => jlookup fs k
  | _ => none

/-- `data.choices[0]?.message?.content` (main.ts line 383). -/
def getContent (data : JVal) : Except String (Option JVal) := do
  let choices ← jsGetProp data "choices"
  let c0 ← jsIndexZero choices
  .ok (jsOptProp (jsOptProp c0 "message") "content")

/-- JavaScript falsiness of the extracted `content` (the `if (!content)`
test at main.ts line 385). -/
def isFalsy : Option JVal → Bool
  | none => true
  | some .null => true
  | some (.str s) => s == ""
  | some (.num q) => q == 0
  | some (.bool b) => !b
  | some _ => false

/-- The analyzer's structured result (the JSON shape the vision backend is
asked to produce). -/
structure VisionAnalysis where
  prompt : String
  score : ℚ
  feedback : String
  improvedPrompt : String
  refinedScore : ℚ
deriving DecidableEq, Repr

def braceOpen : Char := Char.ofNat 123
def braceClose : Char := Char.ofNat 125

/-- The regex match `content.match(/\x7b[\s\S]*\x7d/)` (main.ts line 391):
greedily matches from the first opening brace to the last closing brace;
`none` when no such span exists. -/
def jsonMatch (content : String) : Option String :=
  let cs := content.data
  match cs.findIdx? (fun c => c == braceOpen),
        cs.reverse.findIdx? (fun c => c == braceClose) with
  | some i, some jr =>
    let j := cs.length - 1 - jr
    if i < j then some (String.mk ((cs.drop i).take (j - i + 1))) else none
  | _, _ => none

/-- The fallback result built in the catch block of
`analyzeScreenshotWithVision` (main.ts lines 397–404): default scores of 50,
empty improved prompt, and the raw content truncated to its first 200
characters as feedback. -/
def fallbackAnalysis (content : String) : VisionAnalysis :=
  { prompt := "Could not identify prompt", score := 50,
    feedback := content.take 200, improvedPrompt := "", refinedScore := 50 }

/-- The `try { match; JSON.parse } catch { fallback }` block of
`analyzeScreenshotWithVision` (main.ts lines 390–405) applied to a truthy
`content`.  A non-string content makes `content.match` throw; the catch
block then rethrows from `content.substring`, so the whole call errors. -/
def parseVisionContent (jsonParse : String → Option VisionAnalysis)
    (content : JVal) : Except String VisionAnalysis :=
  match content with
  | .str s =>
    (match jsonMatch s with
     | some cand =>
       match jsonParse cand with
       | some r => .ok r
       | none => .ok (fallbackAnalysis s)
     | none => .ok (fallbackAnalysis s))
  | _ => .error "TypeError: content.substring is not a function"

/-- The backend HTTP response as seen by `analyzeScreenshotWithVision`:
`ok`/`status`/`bodyText` mirror the fetch `Response`; `bodyJson = none`
models `response.json()` rejecting on an invalid JSON body. -/
structure HttpResponse where
  ok : Bool
  status : Nat
  bodyText : String
  bodyJson : Option JVal

/-- `analyzeScreenshotWithVision` (main.ts lines 377–406), from the point
where the backend response is available.  `.error` models a thrown
exception (all of which the `analyze-prompt` handler catches). -/
def analyzeScreenshotWithVision (jsonParse : String → Option VisionAnalysis)
    (resp : HttpResponse) : Except String VisionAnalysis :=
  if !resp.ok then
    .error ("OpenRouter API error: " ++ toString resp.status ++ " - " ++ resp.bodyText)
  else
    match resp.bodyJson with
    | none => .error "SyntaxError: Unexpected token in JSON"
    | some data =>
      match getContent data with
      | .error e => .error e
      | .ok content =>
        if isFalsy content then .error "No response from AI"
        else
          match content with
          | some c => parseVisionContent jsonParse c
          | none => .error "No response from AI"

/-- The payload delivered by the `analyze-prompt` handler on success:
`{ ...analysis, screenText: analysis.prompt }` (main.ts lines 1759–1765). -/
structure AnalysisData where
  prompt : String
  score : ℚ
  feedback : String
  improvedPrompt : String
  refinedScore : ℚ
  screenText : String
deriving DecidableEq, Repr

/-- The uniform `{success, data?, error?}` envelope returned across the IPC
boundary. -/
structure Envelope where
  success : Bool
  data : Option AnalysisData
  error : Option String
deriving DecidableEq, Repr

/-- The `analyze-prompt` IPC handler (main.ts lines 1721–1777) from the
point where the screenshot has been produced and the vision call is made:
its `try`/`catch` converts any exception thrown by
`analyzeScreenshotWithVision` into `{success:false, error: message}`. -/
def analyzePromptHandler (jsonParse : String → Option VisionAnalysis)
    (resp : HttpResponse) : Envelope :=
  match analyzeScreenshotWithVision jsonParse resp with
  | .ok a =>
    { success := true,
      data := some { prompt := a.prompt, score := a.score,
                     feedback := a.feedback,
                     improvedPrompt := a.improvedPrompt,
                     refinedScore := a.refinedScore,
                     screenText := a.prompt },
      error := none }
  | .error e => { success := false, data := none, error := some e }

/-- "Valid JSON missing the expected fields": the extraction of
`choices[0]?.message?.content` from the parsed body either throws or
produces no truthy content. -/
def missingExpectedFields (data : JVal) : Bool :=
  match getContent data with
  | .error _ => true
  | .ok c => isFalsy c

/-- C3: for every backend response that carries an HTTP error status, or an
invalid-JSON body, or a valid JSON body missing the expected fields, the
`analyze-prompt` dispatch returns `{success:false, error: <string>}` —
never an unhandled exception — in all three cases, for every behaviour of
the platform `JSON.parse`. -/
theorem analyzer_failure_envelope (jsonParse : String → Option VisionAnalysis)
    (resp : HttpResponse)
    (h : resp.ok = false ∨ (resp.ok = true ∧ resp.bodyJson = none) ∨
         (∃ d, resp.bodyJson = some d ∧ missingExpectedFields d = true)) :
    (analyzePromptHandler jsonParse resp).success = false ∧
    ∃ e, (analyzePromptHandler jsonParse resp).error = some e := by
  have key : ∃ e, analyzeScreenshotWithVision jsonParse resp = .error e := by
    unfold analyzeScreenshotWithVision
    rcases h with hok | ⟨hok, hbody⟩ | ⟨d, hbody, hmiss⟩
    · rw [hok]
      exact ⟨_, rfl⟩
    · rw [hok, hbody]
      exact ⟨_, rfl⟩
    · rw [hbody]
      cases hok : resp.ok with
      | false => exact ⟨_, rfl⟩
      | true =>
        dsimp only
        unfold missingExpectedFields at hmiss
        cases hc : getContent d with
        | error e => exact ⟨_, rfl⟩
        | ok c =>
          rw [hc] at hmiss
          dsimp only at hmiss
          dsimp only
          rw [if_pos hmiss]
          exact ⟨_, rfl⟩
  obtain ⟨e, he⟩ := key
  unfold analyzePromptHandler
  rw [he]
  exact ⟨rfl, e, rfl⟩

/-- Witness for C3: the three failure classes evaluated at concrete
responses — HTTP 500, an unparsable body, and the valid JSON body `{}`
(which has no `choices` field) — all produce `success = false` with an
error string. -/
theorem analyzer_failure_envelope_witness :
    ((analyzePromptHandler (fun _ => none) ⟨false, 500, "boom", none⟩).success = false ∧
      ∃ e, (analyzePromptHandler (fun _ => none) ⟨false, 500, "boom", none⟩).error = some e) ∧
    ((analyzePromptHandler (fun _ => none) ⟨true, 200, "not json", none⟩).success = false ∧
      ∃ e, (analyzePromptHandler (fun _ => none) ⟨true, 200, "not json", none⟩).error = some e) ∧
    ((analyzePromptHandler (fun _ => none) ⟨true, 200, "", some (JVal.obj [])⟩).success = false ∧
      ∃ e, (analyzePromptHandler (fun _ => none) ⟨true, 200, "", some (JVal.obj [])⟩).error = some e) :=
  ⟨analyzer_failure_envelope _ _ (Or.inl rfl),
   analyzer_failure_envelope _ _ (Or.inr (Or.inl ⟨rfl, rfl⟩)),
   analyzer_failure_envelope _ _ (Or.inr (Or.inr ⟨JVal.obj [], rfl, rfl⟩))⟩

set_option maxRecDepth 8000 in
/-- C4: when the backend returns free text containing no parsable JSON
object as the message content, the dispatch returns a success envelope
(`success = true`) whose data carries score 50, refinedScore 50, an empty
improvedPrompt, and the raw text truncated to its first 200 characters as
feedback — the parse failure is never surfaced as an error. -/
theorem malformed_content_fallback (jsonParse : String → Option VisionAnalysis)
    (s : String) (hne : s ≠ "")
    (hnoparse : ∀ cand, jsonMatch s = some cand → jsonParse cand = none) :
    analyzePromptHandler jsonParse
      ⟨true, 200, "",
        some (JVal.obj [("choices",
          JVal.arr [JVal.obj [("message",
            JVal.obj [("content", JVal.str s)])]])])⟩
      = { success := true,
          data := some { prompt := "Could not identify prompt", score := 50,
                         feedback := s.take 200, improvedPrompt := "",
                         refinedScore := 50,
                         screenText := "Could not identify prompt" },
          error := none } := by
  have hfalsy : ¬(isFalsy (some (JVal.str s)) = true) := by
    simp only [isFalsy, beq_iff_eq]
    exact hne
  have hvision : analyzeScreenshotWithVision jsonParse
      ⟨true, 200, "",
        some (JVal.obj [("choices",
          JVal.arr [JVal.obj [("message",
            JVal.obj [("content", JVal.str s)])]])])⟩
      = parseVisionContent jsonParse (JVal.str s) := by
    have h1 : analyzeScreenshotWithVision jsonParse
        ⟨true, 200, "",
          some (JVal.obj [("choices",
            JVal.arr [JVal.obj [("message",
              JVal.obj [("content", JVal.str s)])]])])⟩
        = if isFalsy (some (JVal.str s)) = true
          then Except.error "No response from AI"
          else parseVisionContent jsonParse (JVal.str s) := rfl
    rw [h1, if_neg hfalsy]
  unfold analyzePromptHandler
  rw [hvision]
  unfold parseVisionContent
  dsimp only
  cases hm : jsonMatch s with
  | none =>
    dsimp only
    simp only [fallbackAnalysis]
  | some cand =>
    dsimp only
    rw [hnoparse cand hm]
    dsimp only
    simp only [fallbackAnalysis]

set_option maxRecDepth 8000 in
/-- Witness for C4: the free-text response "no json here" yields the
fallback success envelope with score 50 and the raw text as feedback. -/
theorem malformed_content_fallback_witness :
    analyzePromptHandler (fun _ => none)
      ⟨true, 200, "",
        some (JVal.obj [("choices",
          JVal.arr [JVal.obj [("message",
            JVal.obj [("content", JVal.str "no json here")])]])])⟩
      = { success := true,
          data := some { prompt := "Could not identify prompt", score := 50,
                         feedback := "no json here", improvedPrompt := "",
                         refinedScore := 50,
                         screenText := "Could not identify prompt" },
          error := none } :=
  malformed_content_fallback (fun _ => none) "no json here" (by decide)
    (fun _ _ => rfl)

/-! ### Capture-source to display matching (src/electron/main.ts lines 119–243)

`captureScreenshot` picks one capture source for the active display via six
ordered heuristics, threading a `targetSource`/`matchMethod` pair; each
later method runs only while `matchMethod.startsWith('default')`.
JavaScript string operations are modelled on `List Char`
(`leadMatch` = `String.prototype.startsWith`, `subSearch`/`hasSub` =
`String.prototype.includes`), and the regex `/screen:(\d+):/` as an
explicit scan (`findScreenNum`). -/

/-- One `DesktopCapturerSource`: opaque id, display name, the
`display_id` correlation hint (`""` when absent, as Electron reports), and
the thumbnail dimensions. -/
structure CaptureSource where
  id : String
  name : String
  displayId : String
  thumbW : ℚ
  thumbH : ℚ
deriving DecidableEq, Repr

/-- One entry of `screen.getAllDisplays()`: id and logical size. -/
structure Display where
  id : Nat
  width : ℚ
  height : ℚ
deriving DecidableEq, Repr

/-- `pat` is a leading run of `s` (JavaScript `s.startsWith(pat)` on char
lists). -/
def leadMatch : List Char → List Char → Bool
  | [], _ => true
  | _ :: _, [] => false
  | p :: ps, c :: cs => p == c && leadMatch ps cs

/-- `pat` occurs somewhere in `s` (JavaScript `s.includes(pat)` on char
lists). -/
def subSearch (p : List Char) (s : List Char) : Bool :=
  match s with
  | [] => leadMatch p []
  | _ :: cs => leadMatch p s || subSearch p cs

/-- JavaScript `s.includes(pat)`. -/
def hasSub (pat s : String) : Bool := subSearch pat.data s.data

/-- JavaScript `s.startsWith(pre)` (used on `matchMethod`). -/
def startsWithStr (pre s : String) : Bool := leadMatch pre.data s.data

/-- Split a leading run of decimal digits (`\d+`). -/
def takeDigits : List Char → List Char × List Char
  | [] => ([], [])
  | c :: cs =>
    if c.isDigit then
      let p := takeDigits cs
      (c :: p.1, p.2)
    else ([], c :: cs)

/-- `parseInt` of a digit run. -/
def digitsToNat (ds : List Char) : Nat :=
  ds.foldl (fun acc c => acc * 10 + (c.toNat - 48)) 0

/-- Try the pattern `screen:(\d+):` anchored at the start of `cs`. -/
def screenNumAt (cs : List Char) : Option Nat :=
  if leadMatch "screen:".data cs then
    match takeDigits (cs.drop 7) with
    | ([], _) => none
    | (ds, c :: _) => if c == ':' then some (digitsToNat ds) else none
    | (_, []) => none
  else none

/-- Scan for the first occurrence of `screen:(\d+):`
(JavaScript `id.match(/screen:(\d+):/)` returning the captured number). -/
def findScreenNum : List Char → Option Nat
  | [] => none
  | c :: cs =>
    match screenNumAt (c :: cs) with
    | some n => some n
    | none => findScreenNum cs

/-- The ordinal `parseInt(match[1], 10)` extracted from `source.id` by
`source.id.match(/screen:(\d+):/)` (main.ts line 177–179). -/
def sourceScreenNum (s : CaptureSource) : Option Nat := findScreenNum s.id.data

/-- Method 1 predicate (main.ts line 166):
`source.display_id && source.display_id.toString() === activeDisplay.id.toString()`. -/
def matchesDisplayCorrelation (activeId : Nat) (s : CaptureSource) : Bool :=
  s.displayId != "" && s.displayId == toString activeId

/-- Method 2 predicate (main.ts lines 176–183): the embedded screen number
equals the active display's enumeration index. -/
def screenNumPred (idx : Int) (s : CaptureSource) : Bool :=
  match sourceScreenNum s with
  | some n => (n : Int) == idx
  | none => false

/-- Method 4 primary-name patterns (main.ts lines 203–207):
`name.includes('Screen 1') || name.includes('Entire Screen') ||
name.toLowerCase().includes('primary')`. -/
def primaryNameMatch (s : CaptureSource) : Bool :=
  hasSub "Screen 1" s.name || hasSub "Entire Screen" s.name ||
    hasSub "primary" s.name.toLower

/-- Method 4 secondary-name predicate (main.ts line 213):
`name.includes('Screen ' + displayNum)`. -/
def secondaryNamePred (displayNum : Int) (s : CaptureSource) : Bool :=
  hasSub ("Screen " ++ toString displayNum) s.name

/-- One iteration of Method 5's scan (main.ts lines 227–235): keep the
source whose thumbnail aspect ratio is strictly closer to the display's.
`none` as the running difference models the initial `Infinity`. -/
def aspectStep (displayAspect : ℚ) (best : CaptureSource × Option ℚ)
    (s : CaptureSource) : CaptureSource × Option ℚ :=
  let diff := |s.thumbW / s.thumbH - displayAspect|
  match best.2 with
  | none => (s, some diff)
  | some d => if diff < d then (s, some diff) else best

/-- Method 5's full scan: fold over the sources starting from
`bestMatch = sources[0]`, `bestDiff = Infinity`. -/
def aspectBest (sources : List CaptureSource) (first : CaptureSource)
    (displayAspect : ℚ) : CaptureSource × Option ℚ :=
  sources.foldl (aspectStep displayAspect) (first, none)

/-- `allDisplays.findIndex(d => d.id === activeDisplay.id)` (main.ts line
133), `-1` when absent. -/
def activeDisplayIndex (displays : List Display) (activeDisplay : Display) : Int :=
  match displays.findIdx? (fun d => d.id == activeDisplay.id) with
  | some i => (i : Int)
  | none => -1

/-- The source-selection logic of `captureScreenshot` (main.ts lines
148–242): the `targetSource`/`matchMethod` pair is threaded exactly as in
the code; each method is guarded by `matchMethod.startsWith('default')`.
`none` models the `throw new Error('No screen sources found')` for an empty
enumeration (lines 148–150). -/
def selectSource (sources : List CaptureSource) (displays : List Display)
    (activeDisplay : Display) (primaryId : Nat) : Option CaptureSource :=
  match sources with
  | [] => none
  | first :: _ =>
    let idx := activeDisplayIndex displays activeDisplay
    let st0 : CaptureSource × String := (first, "default (first source)")
    let st1 :=
      match sources.find? (fun s => matchesDisplayCorrelation activeDisplay.id s) with
      | some s => (s, "display_id match")
      | none => st0
    let st2 :=
      if startsWithStr "default" st1.2 then
        match sources.find? (fun s => screenNumPred idx s) with
        | some s => (s, "source.id screen number")
        | none => st1
      else st1
    let st3 :=
      if startsWithStr "default" st2.2 = true ∧
          sources.length = displays.length ∧ 0 ≤ idx then
        (sources.getD idx.toNat first, "array index (same count)")
      else st2
    let st4 :=
      if startsWithStr "default" st3.2 then
        if activeDisplay.id = primaryId then
          ((sources.find? primaryNameMatch).getD first, "primary display heuristic")
        else
          match sources.find? (fun s => secondaryNamePred (idx + 1) s) with
          | some s => (s, "screen name Screen " ++ toString (idx + 1))
          | none => st3
      else st3
    let st5 :=
      if startsWithStr "default" st4.2 = true ∧ 1 < sources.length then
        let displayAspect := activeDisplay.width / activeDisplay.height
        let best := aspectBest sources first displayAspect
        match best.2 with
        | some d => if d < 1/10 then (best.1, "aspect ratio match") else st4
        | none => st4
      else st4
    some st5.1

/-- Heuristic 1 in isolation: direct `display_id` correlation. -/
def heurDisplayId (sources : List CaptureSource) (activeId : Nat) :
    Option CaptureSource :=
  sources.find? (fun s => matchesDisplayCorrelation activeId s)

/-- Heuristic 2 in isolation: ordinal embedded in the source id equal to
the active display's enumeration index. -/
def heurScreenNum (sources : List CaptureSource) (idx : Int) :
    Option CaptureSource :=
  sources.find? (fun s => screenNumPred idx s)

/-- Heuristic 3 in isolation: positional index when the counts agree. -/
def heurPositional (first : CaptureSource) (sources : List CaptureSource)
    (displays : List Display) (idx : Int) : Option CaptureSource :=
  if sources.length = displays.length ∧ 0 ≤ idx then
    some (sources.getD idx.toNat first)
  else none

/-- Heuristic 4 in isolation: for the primary display it always succeeds
(a source matching the primary naming patterns, or else the first source,
as in `... || sources[0]`); for a non-primary display it succeeds only if
some source name contains `Screen <index+1>`. -/
def heurName (first : CaptureSource) (sources : List CaptureSource)
    (activeDisplay : Display) (primaryId : Nat) (idx : Int) :
    Option CaptureSource :=
  if activeDisplay.id = primaryId then
    some ((sources.find? primaryNameMatch).getD first)
  else
    sources.find? (fun s => secondaryNamePred (idx + 1) s)

/-- Heuristic 5 in isolation: nearest thumbnail aspect ratio, accepted only
when more than one source exists and the best difference is below 0.1. -/
def heurAspect (first : CaptureSource) (sources : List CaptureSource)
    (activeDisplay : Display) : Option CaptureSource :=
  if 1 < sources.length then
    let displayAspect := activeDisplay.width / activeDisplay.height
    let best := aspectBest sources first displayAspect
    match best.2 with
    | some d => if d < 1/10 then some best.1 else none
    | none => none
  else none

/-- First-success-wins evaluation of an ordered heuristic list, falling
back to the given default (the first enumerated source). -/
def firstSuccess (dflt : CaptureSource) : List (Option CaptureSource) → CaptureSource
  | [] => dflt
  | some s :: _ => s
  | none :: rest => firstSuccess dflt rest

/-- The claim's reading of the matching algorithm: the six heuristics tried
in strict priority order, using the first that succeeds. -/
def selectSourceChain (sources : List CaptureSource) (displays : List Display)
    (activeDisplay : Display) (primaryId : Nat) : Option CaptureSource :=
  match sources with
  | [] => none
  | first :: _ =>
    let idx := activeDisplayIndex displays activeDisplay
    some (firstSuccess first
      [heurDisplayId sources activeDisplay.id,
       heurScreenNum sources idx,
       heurPositional first sources displays idx,
       heurName first sources activeDisplay primaryId idx,
       heurAspect first sources activeDisplay])

/-! #### Helper lemmas for the matching-priority theorem -/

theorem startsWith_default_st0 :
    startsWithStr "default" "default (first source)" = true := rfl

theorem startsWith_m1 : startsWithStr "default" "display_id match" = false := rfl

theorem startsWith_m2 :
    startsWithStr "default" "source.id screen number" = false := rfl

theorem startsWith_m3 :
    startsWithStr "default" "array index (same count)" = false := rfl

theorem startsWith_m4p :
    startsWithStr "default" "primary display heuristic" = false := rfl

theorem startsWith_m4s (t : String) :
    startsWithStr "default" ("screen name Screen " ++ t) = false := by
  unfold startsWithStr
  rw [String.data_append]
  rfl

theorem startsWith_m5 : startsWithStr "default" "aspect ratio match" = false := rfl

theorem getD_eq_or_mem {α : Type} (l : List α) (n : Nat) (d : α) :
    l.getD n d = d ∨ l.getD n d ∈ l := by
  induction l generalizing n with
  | nil => exact Or.inl rfl
  | cons a as ih =>
    cases n with
    | zero => exact Or.inr (List.mem_cons_self a as)
    | succ m =>
      rcases ih m with h | h
      · exact Or.inl h
      · exact Or.inr (List.mem_cons_of_mem a h)

theorem getD_mem {α : Type} (l : List α) (n : Nat) (d : α) (hd : d ∈ l) :
    l.getD n d ∈ l := by
  rcases getD_eq_or_mem l n d with h | h
  · rw [h]
    exact hd
  · exact h

theorem aspectStep_fst (a : ℚ) (best : CaptureSource × Option ℚ)
    (s : CaptureSource) :
    (aspectStep a best s).1 = s ∨ (aspectStep a best s).1 = best.1 := by
  rcases best with ⟨b, bd⟩
  cases bd with
  | none => exact Or.inl rfl
  | some d =>
    unfold aspectStep
    dsimp only
    split
    · exact Or.inl rfl
    · exact Or.inr rfl

theorem aspectFold_fst_mem (a : ℚ) (l : List CaptureSource)
    (init : CaptureSource × Option ℚ) :
    (l.foldl (aspectStep a) init).1 = init.1 ∨
      (l.foldl (aspectStep a) init).1 ∈ l := by
  induction l generalizing init with
  | nil => exact Or.inl rfl
  | cons c cs ih =>
    rw [List.foldl_cons]
    rcases ih (aspectStep a init c) with h | h
    · rcases aspectStep_fst a init c with h2 | h2
      · exact Or.inr (by rw [h, h2]; exact List.mem_cons_self c cs)
      · exact Or.inl (by rw [h, h2])
    · exact Or.inr (List.mem_cons_of_mem c h)

theorem firstSuccess_mem {P : CaptureSource → Prop} (dflt : CaptureSource)
    (l : List (Option CaptureSource)) (hd : P dflt)
    (hl : ∀ o ∈ l, ∀ s, o = some s → P s) :
    P (firstSuccess dflt l) := by
  induction l with
  | nil => exact hd
  | cons o rest ih =>
    cases o with
    | some s => exact hl (some s) (List.mem_cons_self _ _) s rfl
    | none =>
      show P (firstSuccess dflt rest)
      exact ih (fun o ho s hs => hl o (List.mem_cons_of_mem _ ho) s hs)

/-- C2: for every non-empty list of enumerated capture sources and every
display list containing the active display, `captureScreenshot`'s selection
equals the first-success evaluation of the six heuristics in strict
priority order — display-correlation id, ordinal embedded in the source id,
positional index on equal counts, primary/secondary name matching (for a
primary display this heuristic always succeeds, defaulting to the first
source), nearest aspect ratio below tolerance 0.1, and finally the first
enumerated source — and it always returns a source, which is one of the
enumerated sources. -/
theorem source_matching_priority (sources : List CaptureSource)
    (displays : List Display) (activeDisplay : Display) (primaryId : Nat)
    (hne : sources ≠ [])
    (hmem : ∃ d ∈ displays, d.id = activeDisplay.id)
    (hth : ∀ s ∈ sources, 0 < s.thumbH)
    (hdh : 0 < activeDisplay.height) :
    selectSource sources displays activeDisplay primaryId
      = selectSourceChain sources displays activeDisplay primaryId ∧
    (∃ s, selectSource sources displays activeDisplay primaryId = some s ∧
      s ∈ sources) := by
  obtain ⟨first, rest, rfl⟩ := List.exists_cons_of_ne_nil hne
  have heq : selectSource (first :: rest) displays activeDisplay primaryId
      = selectSourceChain (first :: rest) displays activeDisplay primaryId := by
    unfold selectSource selectSourceChain heurDisplayId heurScreenNum
      heurPositional heurName heurAspect
    dsimp only
    cases h1 : List.find? (fun s => matchesDisplayCorrelation activeDisplay.id s)
        (first :: rest) with
    | some s =>
      simp only [firstSuccess, startsWith_m1, Bool.false_eq_true, if_false,
        false_and]
    | none =>
      cases h2 : List.find?
          (fun s => screenNumPred (activeDisplayIndex displays activeDisplay) s)
          (first :: rest) with
      | some s =>
        simp only [firstSuccess, startsWith_default_st0, startsWith_m2,
          eq_self_iff_true, if_true, Bool.false_eq_true, if_false, false_and,
          true_and]
      | none =>
        by_cases h3 : (first :: rest).length = displays.length ∧
            0 ≤ activeDisplayIndex displays activeDisplay
        · simp only [firstSuccess, startsWith_default_st0, startsWith_m3,
            eq_self_iff_true, true_and, h3, if_true, Bool.false_eq_true,
            if_false, false_and, and_true, and_self]
        · by_cases h4p : activeDisplay.id = primaryId
          · simp only [firstSuccess, startsWith_default_st0, startsWith_m4p,
              eq_self_iff_true, true_and, h3, h4p, if_true, if_false,
              Bool.false_eq_true, false_and]
          · cases h4 : List.find?
                (fun s => secondaryNamePred
                  (activeDisplayIndex displays activeDisplay + 1) s)
                (first :: rest) with
            | some s =>
              simp only [firstSuccess, startsWith_default_st0, startsWith_m4s,
                eq_self_iff_true, true_and, h3, h4p, if_true, if_false,
                Bool.false_eq_true, false_and]
            | none =>
              by_cases h5a : 1 < (first :: rest).length
              · cases h5b : (aspectBest (first :: rest) first
                    (activeDisplay.width / activeDisplay.height)).2 with
                | some d =>
                  by_cases h5c : d < 1/10
                  · simp only [firstSuccess, startsWith_default_st0,
                      eq_self_iff_true, true_and, h3, h4p, h5a, h5c, if_true,
                      if_false, Bool.false_eq_true, false_and]
                  · simp only [firstSuccess, startsWith_default_st0,
                      eq_self_iff_true, true_and, h3, h4p, h5a, h5c, if_true,
                      if_false, Bool.false_eq_true, false_and]
                | none =>
                  simp only [firstSuccess, startsWith_default_st0,
                    eq_self_iff_true, true_and, h3, h4p, h5a, if_true,
                    if_false, Bool.false_eq_true, false_and]
              · simp only [firstSuccess, startsWith_default_st0,
                  eq_self_iff_true, true_and, h3, h4p, h5a, if_true, if_false,
                  Bool.false_eq_true, false_and]
  refine ⟨heq, ?_⟩
  rw [heq]
  unfold selectSourceChain
  dsimp only
  refine ⟨_, rfl, ?_⟩
  refine firstSuccess_mem first _ (List.mem_cons_self first rest) ?_
  intro o ho s hs
  fin_cases ho
  · exact List.mem_of_find?_eq_some (by unfold heurDisplayId at hs; exact hs)
  · exact List.mem_of_find?_eq_some (by unfold heurScreenNum at hs; exact hs)
  · unfold heurPositional at hs
    split at hs
    · injection hs with hs
      rw [← hs]
      exact getD_mem _ _ _ (List.mem_cons_self first rest)
    · exact Option.noConfusion hs
  · unfold heurName at hs
    split at hs
    · injection hs with hs
      rw [← hs]
      cases hf : List.find? primaryNameMatch (first :: rest) with
      | some x =>
        rw [Option.getD_some]
        exact List.mem_of_find?_eq_some hf
      | none =>
        rw [Option.getD_none]
        exact List.mem_cons_self first rest
    · exact List.mem_of_find?_eq_some hs
  · unfold heurAspect at hs
    split at hs
    · dsimp only at hs
      cases hb : (aspectBest (first :: rest) first
          (activeDisplay.width / activeDisplay.height)).2 with
      | none =>
        rw [hb] at hs
        dsimp only at hs
        exact Option.noConfusion hs
      | some d =>
        rw [hb] at hs
        dsimp only at hs
        split at hs
        · injection hs with hs
          rw [← hs]
          rcases aspectFold_fst_mem (activeDisplay.width / activeDisplay.height)
              (first :: rest) (first, none) with h | h
          · rw [show aspectBest (first :: rest) first
                (activeDisplay.width / activeDisplay.height)
                = (first :: rest).foldl
                    (aspectStep (activeDisplay.width / activeDisplay.height))
                    (first, none) from rfl, h]
            exact List.mem_cons_self first rest
          · exact h
        · exact Option.noConfusion hs
    · exact Option.noConfusion hs

/-- Witness for C2: two sources and two displays, where the second source
carries the matching `display_id` correlation hint for the active display;
the selection equals the priority chain and yields an enumerated source. -/
theorem source_matching_priority_witness :
    selectSource
        [⟨"screen:1:0", "Screen 2", "", 1600, 900⟩,
         ⟨"screen:0:0", "Screen 1", "101", 1920, 1080⟩]
        [⟨101, 1920, 1080⟩, ⟨202, 1600, 900⟩] ⟨101, 1920, 1080⟩ 101
      = selectSourceChain
        [⟨"screen:1:0", "Screen 2", "", 1600, 900⟩,
         ⟨"screen:0:0", "Screen 1", "101", 1920, 1080⟩]
        [⟨101, 1920, 1080⟩, ⟨202, 1600, 900⟩] ⟨101, 1920, 1080⟩ 101 ∧
    (∃ s, selectSource
        [⟨"screen:1:0", "Screen 2", "", 1600, 900⟩,
         ⟨"screen:0:0", "Screen 1", "101", 1920, 1080⟩]
        [⟨101, 1920, 1080⟩, ⟨202, 1600, 900⟩] ⟨101, 1920, 1080⟩ 101 = some s ∧
      s ∈ [⟨"screen:1:0", "Screen 2", "", 1600, 900⟩,
           ⟨"screen:0:0", "Screen 1", "101", 1920, 1080⟩]) :=
  source_matching_priority _ _ _ _ (List.cons_ne_nil _ _)
    ⟨⟨101, 1920, 1080⟩, List.mem_cons_self _ _, rfl⟩
    (by intro s hs; fin_cases hs <;> norm_num)
    (by norm_num)
